import Mathlib

/-!
Shallow embedding of the KML boundary parser
(`src/python/routes/kml_parser.py`): XML element trees, namespace-qualified
descendant search, coordinate-string parsing, polygon / multi-polygon
geometry resolution, property extraction and the top-level `parse_kml`
route logic, together with theorems settling the spec claims.
-/

/-- An XML element as ElementTree presents it: a (namespace-qualified) tag,
an attribute list, the text directly under the element (`None` when absent),
and the child elements in document order. -/
inductive Element : Type where
  | mk : String → List (String × String) → Option String → List Element → Element

def Element.tag : Element → String
  | .mk t _ _ _ => t

def Element.attrib : Element → List (String × String)
  | .mk _ a _ _ => a

def Element.text : Element → Option String
  | .mk _ _ x _ => x

def Element.children : Element → List Element
  | .mk _ _ _ c => c

mutual

/-- All elements of the subtree rooted at `e` (including `e` itself) whose tag
is `tag`, in document (preorder) order. -/
def subtreeMatches (tag : String) (e : Element) : List Element :=
  match e with
  | .mk t a x cs => (if t = tag then [Element.mk t a x cs] else []) ++ forestMatches tag cs

/-- All matches of `tag` in a forest, in document order. -/
def forestMatches (tag : String) : List Element → List Element
  | [] => []
  | e :: es => subtreeMatches tag e ++ forestMatches tag es

end

/-- `element.findall(".//tag")`: every proper descendant with the given tag,
in document order (the element itself is excluded). -/
def findallDesc (e : Element) (tag : String) : List Element :=
  forestMatches tag e.children

/-- `element.find(".//tag")`: the first proper descendant with the given tag. -/
def findDesc (e : Element) (tag : String) : Option Element :=
  (findallDesc e tag).head?

/-- `element.find("tag")`: the first direct child with the given tag. -/
def findChild (e : Element) (tag : String) : Option Element :=
  (e.children.filter (fun c => c.tag = tag)).head?

/-- `element.findall("tag")`: the direct children with the given tag. -/
def findallChildren (e : Element) (tag : String) : List Element :=
  e.children.filter (fun c => c.tag = tag)

/-- `element.get(key)`: attribute lookup. -/
def attrGet (e : Element) (k : String) : Option String :=
  (e.attrib.find? (fun p => p.1 = k)).map (fun p => p.2)

/-- The KML 2.2 namespace as ElementTree prepends it to tags resolved
through `KML_NS`. -/
def kmlNS : String := "\x7bhttp://www.opengis.net/kml/2.2\x7d"

/-- A namespace-qualified KML tag. -/
def kml (s : String) : String := kmlNS ++ s

/-- The characters Python `str.strip()` / `str.split()` treat as whitespace. -/
def pySpace (c : Char) : Bool :=
  c == ' ' || c == '\t' || c == '\n' || c == '\r' || c == '\x0b' || c == '\x0c'

/-- Python `str.strip()`: drop leading and trailing whitespace. -/
def pyStrip (s : String) : String :=
  String.mk (((s.toList.dropWhile pySpace).reverse.dropWhile pySpace).reverse)

/-- Python `str.split()` with no separator: split on whitespace runs,
discarding empty pieces. -/
def pySplit (s : String) : List String :=
  (s.split pySpace).filter (fun t => t ≠ "")

/-- Numeric value of a digit run. -/
def digitsVal (ds : List Char) : Nat :=
  ds.foldl (fun a c => a * 10 + (c.toNat - 48)) 0

/-- Python built-in `float()` on the finite decimal fragment the parser's
inputs use: optional surrounding whitespace, an optional sign, an integer
and/or fractional digit part, and an optional decimal exponent. `none` models
a `ValueError` (the string is not a valid float literal). Values are exact
rationals, so decimal literals compare exactly. -/
def pyFloat (s : String) : Option ℚ :=
  let cs0 := ((s.toList.dropWhile pySpace).reverse.dropWhile pySpace).reverse
  let (sgn, cs1) :=
    match cs0 with
    | '-' :: rest => ((-1 : ℚ), rest)
    | '+' :: rest => ((1 : ℚ), rest)
    | _ => ((1 : ℚ), cs0)
  let ip := cs1.takeWhile Char.isDigit
  let cs2 := cs1.dropWhile Char.isDigit
  let (fp, cs3) :=
    match cs2 with
    | '.' :: rest => (rest.takeWhile Char.isDigit, rest.dropWhile Char.isDigit)
    | _ => ([], cs2)
  if ip.isEmpty && fp.isEmpty then none
  else
    let mant : ℚ := sgn * ((digitsVal ip : ℚ) + (digitsVal fp : ℚ) / (10 : ℚ) ^ fp.length)
    match cs3 with
    | [] => some mant
    | c :: rest =>
      if c == 'e' || c == 'E' then
        let (eneg, rest1) :=
          match rest with
          | '-' :: r => (true, r)
          | '+' :: r => (false, r)
          | _ => (false, rest)
        let ed := rest1.takeWhile Char.isDigit
        let rest2 := rest1.dropWhile Char.isDigit
        if ed.isEmpty || not rest2.isEmpty then none
        else some (if eneg then mant / (10 : ℚ) ^ digitsVal ed else mant * (10 : ℚ) ^ digitsVal ed)
      else none

/-- The token list `parse_coordinates` iterates over (line 65 of the source):
strip the whole string, split on whitespace, strip each token and keep the
non-empty ones. -/
def coordTokens (s : String) : List String :=
  ((pySplit (pyStrip s)).map pyStrip).filter (fun c => c ≠ "")

/-- The loop of `parse_coordinates` (lines 67-76): each token is split on
commas; a token with fewer than two parts is skipped (warning, continue); on a
token with at least two parts, `float()` is applied to the first two parts and
a failure there raises, aborting the whole loop (the `try` wraps the loop);
otherwise the `[lng, lat]` pair is appended. -/
def parseTriplets : List String → Except String (List (ℚ × ℚ))
  | [] => .ok []
  | t :: ts =>
    match t.splitOn "," with
    | p0 :: p1 :: _ =>
      match pyFloat p0 with
      | none => .error ("could not convert string to float: " ++ p0)
      | some lng =>
        match pyFloat p1 with
        | none => .error ("could not convert string to float: " ++ p1)
        | some lat => (parseTriplets ts).map (fun cs => (lng, lat) :: cs)
    | _ => parseTriplets ts

/-- `parse_coordinates` (lines 46-85): tokenize, run the triplet loop, and
raise `ValueError` (modelled as `Except.error`) when the loop raised or when
no valid coordinate was produced; the `except` clause rewraps the message. -/
def parse_coordinates (s : String) : Except String (List (ℚ × ℚ)) :=
  match parseTriplets (coordTokens s) with
  | .error e => .error ("Invalid coordinate format: " ++ e)
  | .ok [] => .error "Invalid coordinate format: No valid coordinates found"
  | .ok cs => .ok cs

/-- Python truthiness of an optional element text: `None` and the empty
string are falsy. -/
def textTruthy : Option String → Bool
  | none => false
  | some s => s != ""

/-- `polygon_elem.find(".//kml:outerBoundaryIs//kml:coordinates")`: the first
`coordinates` descendant of an `outerBoundaryIs` descendant, in document
order. -/
def outerCoordsElem (p : Element) : Option Element :=
  ((findallDesc p (kml "outerBoundaryIs")).map
      (fun ob => findallDesc ob (kml "coordinates"))).flatten.head?

/-- The geometry payload of the source's `GeometryCoordinates` model: a
GeoJSON `Polygon` carries a ring list, a `MultiPolygon` a list of ring
lists. -/
inductive GeoCoords : Type where
  | poly : List (List (ℚ × ℚ)) → GeoCoords
  | multi : List (List (List (ℚ × ℚ))) → GeoCoords
  deriving DecidableEq

/-- The source's `GeometryCoordinates` pydantic model: a geometry type string
plus the coordinate nesting. -/
structure GeometryCoordinates where
  type : String
  coordinates : GeoCoords
  deriving DecidableEq

/-- The polygon list the MultiGeometry branch of `parse_polygon` accumulates
(lines 102-112): for every `Polygon` descendant of the `MultiGeometry`, if an
outer-boundary `coordinates` element with truthy text exists and its text
parses, append the single-ring polygon `[coords]`; failures skip the
polygon. -/
def multiGeometryPolygons (mg : Element) : List (List (List (ℚ × ℚ))) :=
  (findallDesc mg (kml "Polygon")).filterMap (fun pe =>
    match outerCoordsElem pe with
    | some ob =>
      if textTruthy ob.text then
        match parse_coordinates (ob.text.getD "") with
        | .ok coords => some [coords]
        | .error _ => none
      else none
    | none => none)

/-- The single-polygon branch of `parse_polygon` (lines 120-135): first
`Polygon` descendant of the placemark, its outer-boundary coordinates text,
and a `Polygon` geometry when parsing succeeds; `None` otherwise. -/
def singlePolygonGeometry (pm : Element) : Option GeometryCoordinates :=
  match findDesc pm (kml "Polygon") with
  | none => none
  | some p =>
    match outerCoordsElem p with
    | some ob =>
      if textTruthy ob.text then
        match parse_coordinates (ob.text.getD "") with
        | .ok coords => some ⟨"Polygon", GeoCoords.poly [coords]⟩
        | .error _ => none
      else none
    | none => none

/-- `parse_polygon` (lines 88-135): when a `MultiGeometry` descendant exists
and its polygon list is non-empty, return a `MultiPolygon`; otherwise fall
through to the single-`Polygon` branch. -/
def parse_polygon (pm : Element) : Option GeometryCoordinates :=
  match findDesc pm (kml "MultiGeometry") with
  | some mg =>
    let polys := multiGeometryPolygons mg
    if polys.isEmpty then singlePolygonGeometry pm
    else some ⟨"MultiPolygon", GeoCoords.multi polys⟩
  | none => singlePolygonGeometry pm

/-- Python dict assignment `d[k] = v` on a dict represented as an ordered
association list: overwrite the entry when the key is present, append
otherwise. -/
def dictSet (d : List (String × String)) (k v : String) : List (String × String) :=
  if d.any (fun p => p.1 = k) then d.map (fun p => if p.1 = k then (k, v) else p)
  else d ++ [(k, v)]

/-- Python dict lookup `d[k]`. -/
def dictGet (d : List (String × String)) (k : String) : Option String :=
  (d.find? (fun p => p.1 = k)).map (fun p => p.2)

/-- One iteration of the `ExtendedData` loop of `extract_properties`
(lines 163-167): with a truthy `name` attribute and a found `value` child with
truthy text, assign the stripped value under the name; otherwise leave the
dict unchanged. -/
def extendStep (acc : List (String × String)) (de : Element) : List (String × String) :=
  match attrGet de "name", findChild de (kml "value") with
  | some na, some ve =>
    if na ≠ "" ∧ textTruthy ve.text then dictSet acc na (pyStrip (ve.text.getD "")) else acc
  | _, _ => acc

/-- The raw value text a `Data` entry contributes under key `n`: the entry
must carry name attribute `n` (truthy) and a `value` child with truthy text,
exactly the guard of the `ExtendedData` loop restricted to key `n`. -/
def dataEntryValue (n : String) (de : Element) : Option String :=
  match attrGet de "name", findChild de (kml "value") with
  | some na, some ve =>
    if na = n ∧ na ≠ "" ∧ textTruthy ve.text then some (ve.text.getD "") else none
  | _, _ => none

/-- The shared shape of the `name` / `description` steps of
`extract_properties` and of the metadata extraction: when a direct child with
the tag exists and has truthy text, assign its stripped text under `key`. -/
def namedTextProp (e : Element) (tag key : String)
    (d : List (String × String)) : List (String × String) :=
  match findChild e tag with
  | some c => if textTruthy c.text then dictSet d key (pyStrip (c.text.getD "")) else d
  | none => d

/-- `extract_properties` (lines 138-169): `name`, then `description`, then the
`ExtendedData` loop over direct `Data` children. -/
def extract_properties (pm : Element) : List (String × String) :=
  let d := namedTextProp pm (kml "name") "name" []
  let d := namedTextProp pm (kml "description") "description" d
  match findChild pm (kml "ExtendedData") with
  | some ed => (findallChildren ed (kml "Data")).foldl extendStep d
  | none => d

/-- The source's `DistrictFeature` pydantic model. -/
structure DistrictFeature where
  type : String
  properties : List (String × String)
  geometry : GeometryCoordinates
  deriving DecidableEq

/-- The source's `KMLParseResponse` pydantic model. -/
structure KMLParseResponse where
  success : Bool
  features : List DistrictFeature
  error : Option String
  metadata : Option (List (String × String))
  deriving DecidableEq

/-- A FastAPI `HTTPException` as `parse_kml` raises it. -/
structure HTTPError where
  status_code : Nat
  detail : String
  deriving DecidableEq

/-- The document metadata dict of `parse_kml` (lines 218-227): name and
description children of the first `Document` descendant. -/
def documentMetadata (root : Element) : List (String × String) :=
  match findDesc root (kml "Document") with
  | none => []
  | some doc =>
    namedTextProp doc (kml "description") "document_description"
      (namedTextProp doc (kml "name") "document_name" [])

/-- `metadata if metadata else None`: an empty metadata dict becomes `None`. -/
def metadataOpt (root : Element) : Option (List (String × String)) :=
  let m := documentMetadata root
  if m.isEmpty then none else some m

/-- The per-placemark step of the `parse_kml` loop (lines 243-259): a feature
when the placemark has a geometry, nothing otherwise. -/
def placemarkFeature (pm : Element) : Option DistrictFeature :=
  (parse_polygon pm).map (fun g => ⟨"Feature", extract_properties pm, g⟩)

/-- `parse_kml` (lines 207-276) from the XML-parse step on. The argument is
the outcome of `ET.fromstring`: `Except.error msg` models an
`ET.ParseError`, turned into an HTTP 400; a parsed root is processed into a
`KMLParseResponse` (metadata, placemark enumeration, per-placemark features,
aggregation). -/
def parse_kml (xml : Except String Element) : Except HTTPError KMLParseResponse :=
  match xml with
  | .error e => .error ⟨400, "Invalid KML file: " ++ e⟩
  | .ok root =>
    let placemarks := findallDesc root (kml "Placemark")
    if placemarks.isEmpty then
      .ok ⟨false, [], some "No placemarks found in KML file", metadataOpt root⟩
    else
      let features := placemarks.filterMap placemarkFeature
      if features.isEmpty then
        .ok ⟨false, [], some "No valid district boundaries found in KML file", metadataOpt root⟩
      else
        .ok ⟨true, features, none, metadataOpt root⟩

/-- A leaf element holding only text, such as `<name>…</name>`. -/
def textElem (tagName s : String) : Element := .mk (kml tagName) [] (some s) []

/-- A `coordinates` leaf. -/
def coordsElem (txt : String) : Element := .mk (kml "coordinates") [] (some txt) []

/-- A KML `Polygon` with the usual `outerBoundaryIs > LinearRing > coordinates`
nesting. -/
def polyElem (txt : String) : Element :=
  .mk (kml "Polygon") [] none
    [.mk (kml "outerBoundaryIs") [] none
      [.mk (kml "LinearRing") [] none [coordsElem txt]]]

/-- A `MultiGeometry` holding one `Polygon` with no outer boundary at all: its
polygon list parses to `[]`. -/
def c1mg : Element :=
  .mk (kml "MultiGeometry") [] none [.mk (kml "Polygon") [] none []]

/-- A placemark with a valid stand-alone `Polygon` followed by `c1mg`. -/
def c1pm : Element :=
  .mk (kml "Placemark") [] none [polyElem "0,0 1,0 1,1", c1mg]

def c3coords : Element := coordsElem "-122.1,37.5,0 -122.2,37.6,0 -122.1,37.7,0"

def c3poly : Element :=
  .mk (kml "Polygon") [] none
    [.mk (kml "outerBoundaryIs") [] none
      [.mk (kml "LinearRing") [] none [c3coords]]]

def c3pm : Element :=
  .mk (kml "Placemark") [] none [textElem "name" "District 1", c3poly]

def c3doc : Element :=
  .mk (kml "kml") [] none
    [.mk (kml "Document") [] none [textElem "name" "Districts", c3pm]]

def c4p1 : Element := polyElem "0,0 1,0 1,1 0,0"

def c4p2 : Element := polyElem "2,2 3,2 3,3 2,2"

def c4mg : Element := .mk (kml "MultiGeometry") [] none [c4p1, c4p2]

def c4pm : Element := .mk (kml "Placemark") [] none [c4mg]

def c4doc : Element :=
  .mk (kml "kml") [] none [.mk (kml "Document") [] none [c4pm]]

/-- A structurally valid document with a named `Document` and no placemark. -/
def c6doc : Element :=
  .mk (kml "kml") [] none
    [.mk (kml "Document") [] none [textElem "name" "Empty Doc"]]

/-- A placemark with neither `Polygon` nor `MultiGeometry`. -/
def c7pm : Element := .mk (kml "Placemark") [] none [textElem "name" "No Geometry"]

def c7doc : Element :=
  .mk (kml "kml") [] none
    [.mk (kml "Document") [] none [textElem "name" "Doc7", c7pm]]

/-- A placemark whose extended-data value carries surrounding whitespace. -/
def c9pm : Element :=
  .mk (kml "Placemark") [] none
    [.mk (kml "ExtendedData") [] none
      [.mk (kml "Data") [("name", "DISTRICT")] none [textElem "value" " CA-12 "]]]

/-- Two `Data` entries under the same name, later value `CA-12`. -/
def c9dupEd : Element :=
  .mk (kml "ExtendedData") [] none
    [.mk (kml "Data") [("name", "DISTRICT")] none [textElem "value" "CA-11"],
     .mk (kml "Data") [("name", "DISTRICT")] none [textElem "value" "CA-12"]]

def c9dupPm : Element := .mk (kml "Placemark") [] none [c9dupEd]

def c10coords : Element := coordsElem "-122.1,37.5,0"

def c10poly : Element :=
  .mk (kml "Polygon") [] none
    [.mk (kml "outerBoundaryIs") [] none
      [.mk (kml "LinearRing") [] none [c10coords]]]

def c10pm : Element := .mk (kml "Placemark") [] none [c10poly]

def c10doc : Element :=
  .mk (kml "kml") [] none [.mk (kml "Document") [] none [c10pm]]

example : pyFloat "-122.1" = some (-122.1 : ℚ) := by with_unfolding_all rfl
example : pyFloat "0" = some 0 := by with_unfolding_all rfl
example : pyFloat "abc" = none := by with_unfolding_all rfl
example : pyFloat "1e2" = some 100 := by with_unfolding_all rfl
example : pyFloat "" = none := by with_unfolding_all rfl
example : pyFloat "." = none := by with_unfolding_all rfl
example : pyFloat " 37.5 " = some (37.5 : ℚ) := by with_unfolding_all rfl
example : subtreeMatches "a" (Element.mk "a" [] none [Element.mk "b" [] none []]) =
    [Element.mk "a" [] none [Element.mk "b" [] none []]] := by with_unfolding_all rfl
example : parse_coordinates "-122.1,37.5,0 -122.2,37.6,0 -122.1,37.7,0" =
    .ok [(-122.1, 37.5), (-122.2, 37.6), (-122.1, 37.7)] := by with_unfolding_all rfl
example : parse_coordinates "1,2 abc,3 4,5" =
    .error "Invalid coordinate format: could not convert string to float: abc" := by
  with_unfolding_all rfl
example : parse_coordinates "-122.1" =
    .error "Invalid coordinate format: No valid coordinates found" := by with_unfolding_all rfl
example : parse_coordinates "-122.1 3,4" = .ok [(3, 4)] := by with_unfolding_all rfl

theorem find?_map_overwrite (d : List (String × String)) (k v : String)
    (ha : d.any (fun p => p.1 = k) = true) :
    (d.map (fun p => if p.1 = k then (k, v) else p)).find? (fun p => p.1 = k) =
      some (k, v) := by
  induction d with
  | nil => simp at ha
  | cons hd tl ih =>
    by_cases hk : hd.1 = k
    · simp [List.find?_cons, hk]
    · have ha' : tl.any (fun p => p.1 = k) = true := by
        simpa [List.any_cons, hk] using ha
      simp [List.find?_cons, hk, ih ha']

theorem find?_map_preserve (d : List (String × String)) (k v n : String)
    (hn : n ≠ k) :
    (d.map (fun p => if p.1 = k then (k, v) else p)).find? (fun p => p.1 = n) =
      d.find? (fun p => p.1 = n) := by
  induction d with
  | nil => rfl
  | cons hd tl ih =>
    by_cases hk : hd.1 = k
    · have hdn : ¬ hd.1 = n := by rw [hk]; exact fun h => hn h.symm
      have hkn : ¬ (k : String) = n := fun h => hn h.symm
      simp [List.find?_cons, hk, hdn, hkn, ih]
    · by_cases hdn : hd.1 = n
      · simp [List.find?_cons, hk, hdn, hn]
      · simp [List.find?_cons, hk, hdn, ih]

theorem dictGet_dictSet_self (d : List (String × String)) (k v : String) :
    dictGet (dictSet d k v) k = some v := by
  unfold dictGet dictSet
  by_cases ha : d.any (fun p => p.1 = k)
  · rw [if_pos ha, find?_map_overwrite d k v ha]
    rfl
  · rw [if_neg ha]
    have hnone : d.find? (fun p => p.1 = k) = none := by
      rw [List.find?_eq_none]
      intro x hx hpx
      exact ha (List.any_eq_true.mpr ⟨x, hx, hpx⟩)
    rw [List.find?_append, hnone]
    simp [List.find?_cons]

theorem dictGet_dictSet_ne (d : List (String × String)) (k v n : String)
    (hn : n ≠ k) :
    dictGet (dictSet d k v) n = dictGet d n := by
  unfold dictGet dictSet
  by_cases ha : d.any (fun p => p.1 = k)
  · rw [if_pos ha, find?_map_preserve d k v n hn]
  · rw [if_neg ha, List.find?_append]
    have hkn : ¬ (k : String) = n := fun h => hn h.symm
    have : ([(k, v)].find? (fun p => p.1 = n)) = none := by
      simp [List.find?_cons, hkn]
    rw [this]
    cases d.find? (fun p => p.1 = n) <;> rfl

theorem getLast?_cons_of_some {α : Type} (a : α) {l : List α} {v : α}
    (h : l.getLast? = some v) : (a :: l).getLast? = some v := by
  cases l with
  | nil => simp at h
  | cons b t => rw [List.getLast?_cons_cons]; exact h

theorem getLast?_cons_ne_none {α : Type} (b : α) (t : List α) :
    (b :: t).getLast? ≠ none := by
  induction t generalizing b with
  | nil => simp
  | cons c t ih => rw [List.getLast?_cons_cons]; exact ih c

theorem dictGet_extendStep (d : List (String × String)) (de : Element) (n : String) :
    dictGet (extendStep d de) n =
      match dataEntryValue n de with
      | some v0 => some (pyStrip v0)
      | none => dictGet d n := by
  unfold extendStep dataEntryValue
  cases ha : attrGet de "name" with
  | none => cases hv : findChild de (kml "value") <;> rfl
  | some na =>
    cases hv : findChild de (kml "value") with
    | none => rfl
    | some ve =>
      show dictGet (if na ≠ "" ∧ textTruthy ve.text = true then
          dictSet d na (pyStrip (ve.text.getD "")) else d) n =
        match (if na = n ∧ na ≠ "" ∧ textTruthy ve.text = true then
            some (ve.text.getD "") else none) with
        | some v0 => some (pyStrip v0)
        | none => dictGet d n
      by_cases h1 : na ≠ "" ∧ textTruthy ve.text = true
      · by_cases h2 : na = n
        · subst h2
          rw [if_pos h1, if_pos ⟨rfl, h1⟩]
          exact dictGet_dictSet_self d na (pyStrip (ve.text.getD ""))
        · rw [if_pos h1, if_neg (fun hc => h2 hc.1)]
          exact dictGet_dictSet_ne d na (pyStrip (ve.text.getD "")) n
            (fun hc => h2 hc.symm)
      · rw [if_neg h1, if_neg (fun hc => h1 hc.2)]

theorem dictGet_foldl_extendStep (ds : List Element) (d : List (String × String))
    (n : String) :
    dictGet (ds.foldl extendStep d) n =
      match (ds.filterMap (dataEntryValue n)).getLast? with
      | some v => some (pyStrip v)
      | none => dictGet d n := by
  induction ds generalizing d with
  | nil => rfl
  | cons de ds ih =>
    rw [List.foldl_cons, ih (extendStep d de), List.filterMap_cons]
    cases hde : dataEntryValue n de with
    | none =>
      cases hl : (ds.filterMap (dataEntryValue n)).getLast? with
      | some v => rfl
      | none => simpa [hl] using (dictGet_extendStep d de n).trans (by rw [hde])
    | some v0 =>
      cases hl : (ds.filterMap (dataEntryValue n)).getLast? with
      | some v => rw [getLast?_cons_of_some v0 hl]
      | none =>
        have hnil : ds.filterMap (dataEntryValue n) = [] := by
          cases he : ds.filterMap (dataEntryValue n) with
          | nil => rfl
          | cons b t => rw [he] at hl; exact absurd hl (getLast?_cons_ne_none b t)
        rw [hnil]
        simpa using (dictGet_extendStep d de n).trans (by rw [hde])

theorem parse_polygon_of_no_multi (pm : Element)
    (hmg : findDesc pm (kml "MultiGeometry") = none) :
    parse_polygon pm = singlePolygonGeometry pm := by
  simp [parse_polygon, hmg]

theorem parse_polygon_of_multi_nonempty (pm mg : Element)
    (hmg : findDesc pm (kml "MultiGeometry") = some mg)
    (hne : multiGeometryPolygons mg ≠ []) :
    parse_polygon pm = some ⟨"MultiPolygon", GeoCoords.multi (multiGeometryPolygons mg)⟩ := by
  simp [parse_polygon, hmg, List.isEmpty_iff, hne]

theorem singlePolygonGeometry_eq (pm p ob : Element) (s : String) (cs : List (ℚ × ℚ))
    (hp : findDesc pm (kml "Polygon") = some p)
    (hob : outerCoordsElem p = some ob)
    (ht : ob.text = some s) (hs : s ≠ "")
    (hc : parse_coordinates s = .ok cs) :
    singlePolygonGeometry pm = some ⟨"Polygon", GeoCoords.poly [cs]⟩ := by
  simp [singlePolygonGeometry, hp, hob, ht, textTruthy, hs, hc]

theorem multiGeometryPolygons_pair (mg p1 p2 ob1 ob2 : Element) (s1 s2 : String)
    (r1 r2 : List (ℚ × ℚ))
    (hps : findallDesc mg (kml "Polygon") = [p1, p2])
    (hob1 : outerCoordsElem p1 = some ob1) (ht1 : ob1.text = some s1) (hs1 : s1 ≠ "")
    (hc1 : parse_coordinates s1 = .ok r1)
    (hob2 : outerCoordsElem p2 = some ob2) (ht2 : ob2.text = some s2) (hs2 : s2 ≠ "")
    (hc2 : parse_coordinates s2 = .ok r2) :
    multiGeometryPolygons mg = [[r1], [r2]] := by
  simp [multiGeometryPolygons, hps, hob1, ht1, hc1, hob2, ht2, hc2, textTruthy, hs1, hs2]

theorem parse_kml_single (root pm : Element) (g : GeometryCoordinates)
    (hpm : findallDesc root (kml "Placemark") = [pm])
    (hg : parse_polygon pm = some g) :
    parse_kml (.ok root) =
      .ok ⟨true, [⟨"Feature", extract_properties pm, g⟩], none, metadataOpt root⟩ := by
  simp [parse_kml, hpm, placemarkFeature, hg]

/-- C1 (counterexample): in `c1pm` a `MultiGeometry` descendant exists and its
polygon list parses to the empty list, yet `parse_polygon` still emits a
`Polygon` geometry taken from the stand-alone `Polygon` element of the
placemark — the claim that such a placemark gets no geometry is false. -/
theorem c1_counterexample :
    findDesc c1pm (kml "MultiGeometry") = some c1mg ∧
    multiGeometryPolygons c1mg = [] ∧
    parse_polygon c1pm =
      some ⟨"Polygon", GeoCoords.poly [[(0, 0), (1, 0), (1, 1)]]⟩ := by
  refine ⟨?_, ?_, ?_⟩ <;> with_unfolding_all rfl

/-- C1 (amended): when a `MultiGeometry` descendant exists but parsing every
`Polygon` descendant inside it yields an empty polygon list, `parse_polygon`
falls through to the single-`Polygon` branch, so the placemark still gets a
`Polygon` geometry whenever the first `Polygon` descendant of the whole
placemark parses; it has no geometry only when that branch fails too. -/
theorem c1_empty_multigeometry_falls_through (pm mg : Element)
    (hmg : findDesc pm (kml "MultiGeometry") = some mg)
    (hempty : multiGeometryPolygons mg = []) :
    parse_polygon pm = singlePolygonGeometry pm := by
  simp [parse_polygon, hmg, hempty]

/-- C1 witness: the fall-through applied to the concrete placemark `c1pm`. -/
theorem c1_witness : parse_polygon c1pm = singlePolygonGeometry c1pm :=
  c1_empty_multigeometry_falls_through c1pm c1mg (by with_unfolding_all rfl)
    (by with_unfolding_all rfl)

/-- C2 (counterexample): the ring `"1,2 abc,3 4,5"` contains a tuple whose
longitude fails float conversion; the whole ring fails with a ring-level
error even though the two other tuples are valid (second conjunct), so a
tuple-level failure is not always skipped. -/
theorem c2_counterexample :
    parse_coordinates "1,2 abc,3 4,5" =
      .error "Invalid coordinate format: could not convert string to float: abc" ∧
    parse_coordinates "1,2 4,5" = .ok [(1, 2), (4, 5)] := by
  refine ⟨?_, ?_⟩ <;> with_unfolding_all rfl

/-- C2 (amended): a tuple with fewer than two comma-separated components is
skipped and parsing continues with the remaining tuples; but a tuple with at
least two components whose longitude or latitude fails float conversion
aborts the entire ring with an error, regardless of the other tuples. -/
theorem c2_tuple_failure_behavior :
    (∀ (t : String) (ts : List String), (t.splitOn ",").length < 2 →
      parseTriplets (t :: ts) = parseTriplets ts) ∧
    (∀ (t : String) (ts : List String) (p0 p1 : String) (r : List String),
      t.splitOn "," = p0 :: p1 :: r →
      pyFloat p0 = none ∨ pyFloat p1 = none →
      ∃ msg, parseTriplets (t :: ts) = .error msg) := by
  constructor
  · intro t ts h
    cases hsp : t.splitOn "," with
    | nil => simp [parseTriplets, hsp]
    | cons p0 r =>
      cases r with
      | nil => simp [parseTriplets, hsp]
      | cons p1 r2 =>
        rw [hsp] at h
        simp [List.length_cons] at h
        omega
  · intro t ts p0 p1 r hsp hf
    cases h0 : pyFloat p0 with
    | none =>
      exact ⟨"could not convert string to float: " ++ p0,
        by simp [parseTriplets, hsp, h0]⟩
    | some lng =>
      cases h1 : pyFloat p1 with
      | none =>
        exact ⟨"could not convert string to float: " ++ p1,
          by simp [parseTriplets, hsp, h0, h1]⟩
      | some lat =>
        rcases hf with hf | hf
        · rw [h0] at hf; exact absurd hf (by simp)
        · rw [h1] at hf; exact absurd hf (by simp)

/-- C2 witness: the short tuple `"1"` is skipped, while the float-failing
tuple `"abc,3"` errors the ring. -/
theorem c2_witness :
    parseTriplets ["1"] = parseTriplets [] ∧
    (∃ msg, parseTriplets ["abc,3"] = .error msg) :=
  ⟨c2_tuple_failure_behavior.1 "1" [] (by with_unfolding_all decide),
   c2_tuple_failure_behavior.2 "abc,3" [] "abc" "3" []
     (by with_unfolding_all rfl) (Or.inl (by with_unfolding_all rfl))⟩

/-- C3: any document whose only placemark has no `MultiGeometry` and whose
first `Polygon` descendant carries the outer-boundary coordinates text
`"-122.1,37.5,0 -122.2,37.6,0 -122.1,37.7,0"` parses successfully into one
feature with geometry type `"Polygon"` and coordinates
`[[[-122.1,37.5],[-122.2,37.6],[-122.1,37.7]]]` — altitudes discarded, one
ring of three lng,lat pairs. -/
theorem c3_single_polygon_document (root pm p ob : Element)
    (hpm : findallDesc root (kml "Placemark") = [pm])
    (hmg : findDesc pm (kml "MultiGeometry") = none)
    (hp : findDesc pm (kml "Polygon") = some p)
    (hob : outerCoordsElem p = some ob)
    (ht : ob.text = some "-122.1,37.5,0 -122.2,37.6,0 -122.1,37.7,0") :
    parse_kml (.ok root) =
      .ok ⟨true,
        [⟨"Feature", extract_properties pm,
          ⟨"Polygon", GeoCoords.poly
            [[(-122.1, 37.5), (-122.2, 37.6), (-122.1, 37.7)]]⟩⟩],
        none, metadataOpt root⟩ := by
  have hc : parse_coordinates "-122.1,37.5,0 -122.2,37.6,0 -122.1,37.7,0" =
      .ok [(-122.1, 37.5), (-122.2, 37.6), (-122.1, 37.7)] := by
    with_unfolding_all rfl
  have hsg := singlePolygonGeometry_eq pm p ob _ _ hp hob ht (by decide) hc
  exact parse_kml_single root pm _ hpm
    ((parse_polygon_of_no_multi pm hmg).trans hsg)

/-- C3 witness: the concrete single-polygon document `c3doc`. -/
theorem c3_witness :
    parse_kml (.ok c3doc) =
      .ok ⟨true,
        [⟨"Feature", extract_properties c3pm,
          ⟨"Polygon", GeoCoords.poly
            [[(-122.1, 37.5), (-122.2, 37.6), (-122.1, 37.7)]]⟩⟩],
        none, metadataOpt c3doc⟩ :=
  c3_single_polygon_document c3doc c3pm c3poly c3coords
    (by with_unfolding_all rfl) (by with_unfolding_all rfl)
    (by with_unfolding_all rfl) (by with_unfolding_all rfl)
    (by with_unfolding_all rfl)

/-- C4: any document whose only placemark holds a `MultiGeometry` with
exactly two `Polygon` descendants, both of whose outer-boundary rings parse,
yields one feature with geometry type `"MultiPolygon"` whose coordinate list
has length 2, each element a single-element list wrapping that polygon's
ring (nesting `[polygon][ring][coord]`). -/
theorem c4_multigeometry_two_polygons (root pm mg p1 p2 ob1 ob2 : Element)
    (s1 s2 : String) (r1 r2 : List (ℚ × ℚ))
    (hpm : findallDesc root (kml "Placemark") = [pm])
    (hmg : findDesc pm (kml "MultiGeometry") = some mg)
    (hps : findallDesc mg (kml "Polygon") = [p1, p2])
    (hob1 : outerCoordsElem p1 = some ob1) (ht1 : ob1.text = some s1)
    (hs1 : s1 ≠ "") (hc1 : parse_coordinates s1 = .ok r1)
    (hob2 : outerCoordsElem p2 = some ob2) (ht2 : ob2.text = some s2)
    (hs2 : s2 ≠ "") (hc2 : parse_coordinates s2 = .ok r2) :
    parse_kml (.ok root) =
      .ok ⟨true,
        [⟨"Feature", extract_properties pm,
          ⟨"MultiPolygon", GeoCoords.multi [[r1], [r2]]⟩⟩],
        none, metadataOpt root⟩ := by
  have hmp := multiGeometryPolygons_pair mg p1 p2 ob1 ob2 s1 s2 r1 r2 hps
    hob1 ht1 hs1 hc1 hob2 ht2 hs2 hc2
  have hpp := parse_polygon_of_multi_nonempty pm mg hmg (by rw [hmp]; simp)
  rw [hmp] at hpp
  exact parse_kml_single root pm _ hpm hpp

/-- C4 witness: the concrete two-polygon `MultiGeometry` document `c4doc`. -/
theorem c4_witness :
    parse_kml (.ok c4doc) =
      .ok ⟨true,
        [⟨"Feature", extract_properties c4pm,
          ⟨"MultiPolygon", GeoCoords.multi
            [[[(0, 0), (1, 0), (1, 1), (0, 0)]],
             [[(2, 2), (3, 2), (3, 3), (2, 2)]]]⟩⟩],
        none, metadataOpt c4doc⟩ :=
  c4_multigeometry_two_polygons c4doc c4pm c4mg c4p1 c4p2
    (coordsElem "0,0 1,0 1,1 0,0") (coordsElem "2,2 3,2 3,3 2,2")
    "0,0 1,0 1,1 0,0" "2,2 3,2 3,3 2,2"
    [(0, 0), (1, 0), (1, 1), (0, 0)] [(2, 2), (3, 2), (3, 3), (2, 2)]
    (by with_unfolding_all rfl) (by with_unfolding_all rfl)
    (by with_unfolding_all rfl) (by with_unfolding_all rfl)
    (by with_unfolding_all rfl) (by decide) (by with_unfolding_all rfl)
    (by with_unfolding_all rfl) (by with_unfolding_all rfl) (by decide)
    (by with_unfolding_all rfl)

/-- C5: a coordinate tuple with fewer than two comma-separated components is
dropped while the remaining tuples still form the ring, and whenever the
loop over an entire ring produces zero valid coordinates,
`parse_coordinates` raises the ring-level "No valid coordinates found"
failure, so no geometry can come from that ring. -/
theorem c5_short_tuple_dropped_empty_ring_fails :
    (∀ (t : String) (ts : List String), (t.splitOn ",").length < 2 →
      parseTriplets (t :: ts) = parseTriplets ts) ∧
    (∀ s : String, parseTriplets (coordTokens s) = .ok [] →
      parse_coordinates s =
        .error "Invalid coordinate format: No valid coordinates found") := by
  constructor
  · intro t ts h
    cases hsp : t.splitOn "," with
    | nil => simp [parseTriplets, hsp]
    | cons p0 r =>
      cases r with
      | nil => simp [parseTriplets, hsp]
      | cons p1 r2 =>
        rw [hsp] at h
        simp [List.length_cons] at h
        omega
  · intro s h
    unfold parse_coordinates
    rw [h]

/-- C5 witness: the lone latitude-less tuple `"-122.1"` is dropped, leaving
an empty ring that fails at ring level. -/
theorem c5_witness :
    parseTriplets ["-122.1"] = parseTriplets [] ∧
    parse_coordinates "-122.1" =
      .error "Invalid coordinate format: No valid coordinates found" :=
  ⟨c5_short_tuple_dropped_empty_ring_fails.1 "-122.1" []
     (by with_unfolding_all decide),
   c5_short_tuple_dropped_empty_ring_fails.2 "-122.1"
     (by with_unfolding_all rfl)⟩

/-- C6 (counterexample): on the placemark-free document `c6doc` the parser
returns `success=false` with error string
`"No placemarks found in KML file"`, which is not the string
`"no placemarks found"` the claim names. -/
theorem c6_counterexample :
    findallDesc c6doc (kml "Placemark") = [] ∧
    parse_kml (.ok c6doc) =
      .ok ⟨false, [], some "No placemarks found in KML file",
        some [("document_name", "Empty Doc")]⟩ ∧
    "No placemarks found in KML file" ≠ "no placemarks found" := by
  refine ⟨by with_unfolding_all rfl, by with_unfolding_all rfl, by decide⟩

/-- C6 (amended): for every structurally valid document with zero `Placemark`
elements, `parse_kml` returns `success=false`, an empty feature list and the
error string `"No placemarks found in KML file"`, with the document metadata
still attached when a `Document` name or description was present. -/
theorem c6_no_placemarks (root : Element)
    (h : findallDesc root (kml "Placemark") = []) :
    parse_kml (.ok root) =
      .ok ⟨false, [], some "No placemarks found in KML file", metadataOpt root⟩ := by
  simp [parse_kml, h]

/-- C6 witness: the concrete document `c6doc`, whose metadata carries the
`Document` name. -/
theorem c6_witness :
    parse_kml (.ok c6doc) =
      .ok ⟨false, [], some "No placemarks found in KML file", metadataOpt c6doc⟩ :=
  c6_no_placemarks c6doc (by with_unfolding_all rfl)

/-- C7 (counterexample): on `c7doc`, whose single placemark has no geometry,
the parser returns `success=false` with error string
`"No valid district boundaries found in KML file"` — not the string
`"no valid boundaries found"` the claim names — while preserving the
`Document` name metadata. -/
theorem c7_counterexample :
    parse_kml (.ok c7doc) =
      .ok ⟨false, [], some "No valid district boundaries found in KML file",
        some [("document_name", "Doc7")]⟩ ∧
    "No valid district boundaries found in KML file" ≠ "no valid boundaries found" := by
  refine ⟨by with_unfolding_all rfl, by decide⟩

/-- C7 (amended): for every document in which placemarks exist but none
yields a geometry, `parse_kml` returns — as a result value, not an
exception — `success=false`, no features, the error string
`"No valid district boundaries found in KML file"`, and any extracted
metadata. -/
theorem c7_no_valid_boundaries (root : Element)
    (hne : findallDesc root (kml "Placemark") ≠ [])
    (hall : ∀ pm ∈ findallDesc root (kml "Placemark"), parse_polygon pm = none) :
    parse_kml (.ok root) =
      .ok ⟨false, [],
        some "No valid district boundaries found in KML file", metadataOpt root⟩ := by
  have hf : (findallDesc root (kml "Placemark")).filterMap placemarkFeature = [] := by
    rw [List.filterMap_eq_nil_iff]
    intro pm hm
    simp [placemarkFeature, hall pm hm]
  have hne2 : (findallDesc root (kml "Placemark")).isEmpty = false := by
    cases he : findallDesc root (kml "Placemark") with
    | nil => exact absurd he hne
    | cons a l => rfl
  simp [parse_kml, hne2, hf]

/-- C7 witness: the concrete geometry-free document `c7doc`. -/
theorem c7_witness :
    parse_kml (.ok c7doc) =
      .ok ⟨false, [],
        some "No valid district boundaries found in KML file", metadataOpt c7doc⟩ :=
  c7_no_valid_boundaries c7doc
    (by
      have e : findallDesc c7doc (kml "Placemark") = [c7pm] := by
        with_unfolding_all rfl
      rw [e]
      simp)
    (by
      intro pm hm
      have e : findallDesc c7doc (kml "Placemark") = [c7pm] := by
        with_unfolding_all rfl
      rw [e] at hm
      simp at hm
      subst hm
      with_unfolding_all rfl)

/-- C8: a failed XML parse is surfaced as a distinct HTTP 400 error (never as
a `success=false` response envelope), while every successfully parsed
document — including the no-placemarks and no-valid-boundaries cases — is
answered with an `ok` response, never an exception. -/
theorem c8_malformed_input_distinct :
    (∀ msg : String,
      parse_kml (.error msg) = .error ⟨400, "Invalid KML file: " ++ msg⟩) ∧
    (∀ root : Element, ∃ resp : KMLParseResponse, parse_kml (.ok root) = .ok resp) := by
  constructor
  · intro msg
    rfl
  · intro root
    cases h1 : (findallDesc root (kml "Placemark")).isEmpty with
    | true =>
      exact ⟨⟨false, [], some "No placemarks found in KML file", metadataOpt root⟩,
        by simp [parse_kml, h1]⟩
    | false =>
      cases h2 : ((findallDesc root (kml "Placemark")).filterMap placemarkFeature).isEmpty with
      | true =>
        exact ⟨⟨false, [], some "No valid district boundaries found in KML file",
          metadataOpt root⟩, by simp [parse_kml, h1, h2]⟩
      | false =>
        exact ⟨⟨true, (findallDesc root (kml "Placemark")).filterMap placemarkFeature,
          none, metadataOpt root⟩, by simp [parse_kml, h1, h2]⟩

/-- C9 (counterexample): the extended-data entry of `c9pm` has value text
`" CA-12 "` but the properties mapping stores the stripped `"CA-12"`, so the
value is not added verbatim. -/
theorem c9_counterexample :
    dictGet (extract_properties c9pm) "DISTRICT" = some "CA-12" ∧
    ("CA-12" : String) ≠ " CA-12 " := by
  refine ⟨by with_unfolding_all rfl, by decide⟩

/-- C9 (amended): for every placemark with an `ExtendedData` child, the
properties mapping stores, under each name `n`, the stripped value text of
the LAST `Data` entry that carries name `n` and a truthy value — later
duplicate entries overwrite earlier ones, and values are trimmed of
surrounding whitespace rather than stored verbatim. -/
theorem c9_extended_data_trimmed_last_wins (pm ed : Element) (n v : String)
    (hed : findChild pm (kml "ExtendedData") = some ed)
    (hlast : ((findallChildren ed (kml "Data")).filterMap
        (dataEntryValue n)).getLast? = some v) :
    dictGet (extract_properties pm) n = some (pyStrip v) := by
  unfold extract_properties
  simp only [hed]
  rw [dictGet_foldl_extendStep, hlast]

/-- C9 witness: on `c9dupPm` the later duplicate `DISTRICT` entry wins. -/
theorem c9_witness :
    dictGet (extract_properties c9dupPm) "DISTRICT" = some (pyStrip "CA-12") :=
  c9_extended_data_trimmed_last_wins c9dupPm c9dupEd "DISTRICT" "CA-12"
    (by with_unfolding_all rfl) (by with_unfolding_all rfl)

/-- C10: a placemark (without `MultiGeometry`) whose first `Polygon`
descendant has a coordinates text parsing to exactly one valid lng,lat tuple
is emitted as a `Polygon` feature whose single ring holds exactly that one
coordinate pair — no ring-closure check and no minimum vertex count is
enforced on emitted rings. -/
theorem c10_single_vertex_polygon (root pm p ob : Element) (s : String)
    (c : ℚ × ℚ)
    (hpm : findallDesc root (kml "Placemark") = [pm])
    (hmg : findDesc pm (kml "MultiGeometry") = none)
    (hp : findDesc pm (kml "Polygon") = some p)
    (hob : outerCoordsElem p = some ob)
    (ht : ob.text = some s) (hs : s ≠ "")
    (hc : parse_coordinates s = .ok [c]) :
    parse_kml (.ok root) =
      .ok ⟨true,
        [⟨"Feature", extract_properties pm, ⟨"Polygon", GeoCoords.poly [[c]]⟩⟩],
        none, metadataOpt root⟩ := by
  have hsg := singlePolygonGeometry_eq pm p ob s [c] hp hob ht hs hc
  exact parse_kml_single root pm _ hpm
    ((parse_polygon_of_no_multi pm hmg).trans hsg)

/-- C10 witness: the one-vertex document `c10doc` with coordinates text
`"-122.1,37.5,0"`. -/
theorem c10_witness :
    parse_kml (.ok c10doc) =
      .ok ⟨true,
        [⟨"Feature", extract_properties c10pm,
          ⟨"Polygon", GeoCoords.poly [[(-122.1, 37.5)]]⟩⟩],
        none, metadataOpt c10doc⟩ :=
  c10_single_vertex_polygon c10doc c10pm c10poly c10coords "-122.1,37.5,0"
    (-122.1, 37.5)
    (by with_unfolding_all rfl) (by with_unfolding_all rfl)
    (by with_unfolding_all rfl) (by with_unfolding_all rfl)
    (by with_unfolding_all rfl) (by decide) (by with_unfolding_all rfl)
